import Mathlib

/-!
# Verification of the Canvas rectangle/polygon editor

A shallow embedding of the interactive 2D shape editor (`Canvas.ts`,
`Rectangle.ts`, `Polygon.ts`).  Coordinates are JS numbers in the source;
the relevant code uses only ring operations (`+`, `-`, squaring) and order
comparisons, so the embedding is polymorphic over a `LinearOrderedCommRing`.
Universal theorems are proved generically (so they hold for the real
numbers); concrete witnesses and counterexamples instantiate at `ℤ`, where
all definitions evaluate by `decide`.

The rendering collaborator (canvas 2D context) is out of scope: drawing
calls are dropped, and the `isPointInPath` point-in-path test is an
explicit function parameter.  JS exceptions are modelled by `Option`
(`none` = the handler throws and aborts).
-/

/-- `Point` from `Rectangle.ts` / `Polygon.ts`: `{x, y}` plane coordinates. -/
structure Point (α : Type) where
  x : α
  y : α
deriving DecidableEq, Repr

/-- `Rect` from `Rectangle.ts`: `{x, y, width, height}` descriptor. -/
structure Rect (α : Type) where
  x : α
  y : α
  width : α
  height : α
deriving DecidableEq, Repr

/-- The `Rectangle` class (`Rectangle.ts`): 4 derived corner points, the
canonical rect descriptor, a border color and a selection flag.  Field
initialisers in the source: `points = []`, `rect = {x:-1,y:-1,width:-1,height:-1}`,
`color = 'black'`, `selected = false`. -/
structure Rectangle (α : Type) where
  points : List (Point α)
  rect : Rect α
  color : String
  selected : Bool
deriving DecidableEq, Repr

/-- The `Polygon` class (`Polygon.ts`): ordered vertex list, border color,
selection flag. -/
structure Polygon (α : Type) where
  points : List (Point α)
  color : String
  selected : Bool
deriving DecidableEq, Repr

/-- `type Geom = Rectangle | Polygon` (`Canvas.ts`). -/
inductive Geom (α : Type) where
  | rect (g : Rectangle α)
  | poly (p : Polygon α)
deriving DecidableEq, Repr

/-- Pointer event payload consumed by the handlers:
`{offsetX, offsetY, movementX, movementY}`. -/
structure MouseEvent (α : Type) where
  offsetX : α
  offsetY : α
  movementX : α
  movementY : α
deriving DecidableEq, Repr

/-- The mutable session/editor state of the `Canvas` class that the pointer
handlers read and write (`Canvas.ts` lines 94-115).  The canvas element,
rendering context, colors of the background and callbacks are external
collaborators and are not part of the state.  `cursor` is the canvas
cursor string (`this.$canvas.style.cursor`). -/
structure CanvasState (α : Type) where
  geoms : List (Geom α)
  circles : List (Point α)
  isDraw : Bool
  isDrag : Bool
  startX : α
  startY : α
  index : ℤ
  circleIndex : ℤ
  isRectChange : Bool
  placement : String
  oldRect : Rect α
  borderColor : String
  radius : α
deriving DecidableEq, Repr

variable {α : Type} [LinearOrderedCommRing α]

/-- `Rectangle.setPointsRect` (`Rectangle.ts` lines 26-57): normalises two
corner points into min/max bounds, regenerates the 4-point sequence and the
`{x,y,width,height}` descriptor. -/
def Rectangle.setPointsRect (g : Rectangle α) (startX startY endX endY : α) :
    Rectangle α :=
  let minX := if startX < endX then startX else endX
  let maxX := if startX < endX then endX else startX
  let minY := if startY < endY then startY else endY
  let maxY := if startY < endY then endY else startY
  { g with
    points := [⟨minX, minY⟩, ⟨maxX, minY⟩, ⟨maxX, maxY⟩, ⟨minX, maxY⟩],
    rect := { x := minX, y := minY, width := maxX - minX, height := maxY - minY } }

/-- The `Rectangle` constructor (`Rectangle.ts` lines 20-24): starts from the
field initialisers, calls `setPointsRect`, then stores `color` and
`selected`. -/
def Rectangle.make (startX startY endX endY : α) (color : String)
    (selected : Bool) : Rectangle α :=
  { Rectangle.setPointsRect ⟨[], ⟨-1, -1, -1, -1⟩, "black", false⟩
      startX startY endX endY with
    color := color, selected := selected }

/-- The `Polygon` constructor (`Polygon.ts` lines 13-17).  Note the source
assigns `this.selected = false`, ignoring the `selected` parameter. -/
def Polygon.make (points : List (Point α)) (color : String)
    (selected : Bool) : Polygon α :=
  { points := points, color := color, selected := false }

/-- The four corners of a rect descriptor in the order generated by
`setPointsRect`: (min-x,min-y), (max-x,min-y), (max-x,max-y), (min-x,max-y). -/
def rectCorners (r : Rect α) : List (Point α) :=
  [⟨r.x, r.y⟩, ⟨r.x + r.width, r.y⟩, ⟨r.x + r.width, r.y + r.height⟩,
   ⟨r.x, r.y + r.height⟩]

/-- Selection flag of a geom. -/
def Geom.selected : Geom α → Bool
  | .rect g => g.selected
  | .poly p => p.selected

/-- Overwrite the selection flag of a geom (`geom.selected = b`). -/
def Geom.withSelected : Geom α → Bool → Geom α
  | .rect g, b => .rect { g with selected := b }
  | .poly p, b => .poly { p with selected := b }

/-- Boolean form of `Math.sqrt((p.x-q.x)**2 + (p.y-q.y)**2) < r`.  Over the
reals, `sqrt s < r` (with `s ≥ 0`) holds iff `0 < r ∧ s < r²`, which is the
square-free form used here. -/
def distLtB (p q : Point α) (r : α) : Bool :=
  decide (0 < r ∧ (p.x - q.x) ^ 2 + (p.y - q.y) ^ 2 < r ^ 2)

/-- Boolean form of `Math.sqrt((p.x-q.x)**2 + (p.y-q.y)**2) <= r`.  Over the
reals, `sqrt s ≤ r` (with `s ≥ 0`) holds iff `0 ≤ r ∧ s ≤ r²`. -/
def distLeB (p q : Point α) (r : α) : Bool :=
  decide (0 ≤ r ∧ (p.x - q.x) ^ 2 + (p.y - q.y) ^ 2 ≤ r ^ 2)

/-- JS `Array.prototype.splice(index, 1)` on the shape collection: a negative
index counts from the end (clamped at 0), an index past the end removes
nothing.  Never throws. -/
def spliceDelete (geoms : List (Geom α)) (index : ℤ) : List (Geom α) :=
  let len : ℤ := geoms.length
  let start : ℤ := if index < 0 then max (len + index) 0 else min index len
  geoms.take start.toNat ++ geoms.drop (start.toNat + 1)

/-- `Canvas.delete` (`Canvas.ts` lines 197-200): `this.geoms.splice(index, 1)`
followed by a redraw (external).  `splice` never throws, so this always
returns `some`. -/
def Canvas.delete (geoms : List (Geom α)) (index : ℤ) :
    Option (List (Geom α)) :=
  some (spliceDelete geoms index)

/-- `Canvas.setSelected` (`Canvas.ts` lines 214-220): clear `selected` on
every geom, then `this.geoms[index].selected = true`.  When `index` is out
of range, `this.geoms[index]` is `undefined` and the property write throws
a `TypeError`, modelled by `none`. -/
def Canvas.setSelected (geoms : List (Geom α)) (index : ℤ) :
    Option (List (Geom α)) :=
  if 0 ≤ index then
    match geoms.get? index.toNat with
    | some g =>
        some ((geoms.map fun x => x.withSelected false).set index.toNat
          (g.withSelected true))
    | none => none
  else
    none

/-- The rectangle branch of `Canvas.dragging` (`Canvas.ts` lines 262-270):
translate the rect by the pointer movement and regenerate its points via
`setPointsRect`. -/
def Canvas.draggingRect (geom : Rectangle α) (e : MouseEvent α) :
    Rectangle α :=
  let x := geom.rect.x + e.movementX
  let y := geom.rect.y + e.movementY
  geom.setPointsRect x y (x + geom.rect.width) (y + geom.rect.height)

/-- One pointer-move of `Canvas.rectResize` (`Canvas.ts` lines 300-475) acting
on the target rectangle.  `oldRect` is the frozen pre-gesture snapshot
(`this.oldRect`), `cursor` the current canvas cursor (returned unchanged when
no placement matches), `geom` the live rectangle.  Each `switch` case and each
of the 4 sub-branches of the corner cases is transcribed; the sequential `if`s
of a corner case have mutually exclusive conditions, so they are rendered as
nested `if`s.  Returns the new cursor and the updated rectangle. -/
def Canvas.rectResizeStep (placement : String) (oldRect : Rect α)
    (cursor : String) (geom : Rectangle α) (e : MouseEvent α) :
    String × Rectangle α :=
  let x := geom.rect.x
  let y := geom.rect.y
  let width := geom.rect.width
  let height := geom.rect.height
  if placement = "right" then
    if oldRect.x ≤ e.offsetX then
      ("e-resize",
        geom.setPointsRect oldRect.x y (oldRect.x + width + e.movementX)
          (y + height))
    else
      ("w-resize", geom.setPointsRect e.offsetX y oldRect.x (y + height))
  else if placement = "bottom" then
    if oldRect.y ≤ e.offsetY then
      ("s-resize",
        geom.setPointsRect x oldRect.y (x + width)
          (oldRect.y + height + e.movementY))
    else
      ("n-resize", geom.setPointsRect x e.offsetY (x + width) oldRect.y)
  else if placement = "left" then
    let endX := oldRect.x + oldRect.width
    if e.offsetX ≤ endX then
      ("w-resize", geom.setPointsRect (x + e.movementX) y endX (y + height))
    else
      ("e-resize", geom.setPointsRect endX y e.offsetX (y + height))
  else if placement = "top" then
    let endY := oldRect.y + oldRect.height
    if e.offsetY ≤ endY then
      ("n-resize", geom.setPointsRect x (y + e.movementY) (x + width) endY)
    else
      ("s-resize", geom.setPointsRect x endY (x + width) e.offsetY)
  else if placement = "right-bottom" then
    if oldRect.x ≤ e.offsetX then
      if oldRect.y ≤ e.offsetY then
        ("se-resize",
          geom.setPointsRect oldRect.x oldRect.y
            (oldRect.x + width + e.movementX)
            (oldRect.y + height + e.movementY))
      else
        ("ne-resize",
          geom.setPointsRect oldRect.x e.offsetY
            (oldRect.x + width + e.movementX) oldRect.y)
    else
      if oldRect.y ≤ e.offsetY then
        ("sw-resize",
          geom.setPointsRect e.offsetX oldRect.y oldRect.x
            (oldRect.y + height + e.movementY))
      else
        ("nw-resize",
          geom.setPointsRect e.offsetX e.offsetY oldRect.x oldRect.y)
  else if placement = "right-top" then
    let endY := oldRect.y + oldRect.height
    if oldRect.x ≤ e.offsetX then
      if e.offsetY ≤ endY then
        ("ne-resize",
          geom.setPointsRect oldRect.x (y + e.movementY)
            (oldRect.x + width + e.movementX) endY)
      else
        ("se-resize",
          geom.setPointsRect oldRect.x endY
            (oldRect.x + width + e.movementX) e.offsetY)
    else
      if e.offsetY ≤ endY then
        ("nw-resize",
          geom.setPointsRect e.offsetX (y + e.movementY) oldRect.x endY)
      else
        ("sw-resize",
          geom.setPointsRect e.offsetX e.offsetY oldRect.x endY)
  else if placement = "left-bottom" then
    let endX := oldRect.x + oldRect.width
    if e.offsetX ≤ endX then
      if oldRect.y ≤ e.offsetY then
        ("sw-resize",
          geom.setPointsRect (x + e.movementX) oldRect.y endX
            (oldRect.y + height + e.movementY))
      else
        ("nw-resize",
          geom.setPointsRect (x + e.movementX) e.offsetY endX oldRect.y)
    else
      if oldRect.y ≤ e.offsetY then
        ("se-resize",
          geom.setPointsRect endX oldRect.y e.offsetX
            (oldRect.y + height + e.movementY))
      else
        ("ne-resize",
          geom.setPointsRect endX oldRect.y e.offsetX e.offsetY)
  else if placement = "left-top" then
    let endX := oldRect.x + oldRect.width
    let endY := oldRect.y + oldRect.height
    if e.offsetX ≤ endX then
      if e.offsetY ≤ endY then
        ("nw-resize",
          geom.setPointsRect (x + e.movementX) (y + e.movementY) endX endY)
      else
        ("sw-resize",
          geom.setPointsRect (x + e.movementX) endY endX e.offsetY)
    else
      if e.offsetY ≤ endY then
        ("ne-resize",
          geom.setPointsRect endX (y + e.movementY) e.offsetX endY)
      else
        ("se-resize", geom.setPointsRect endX endY e.offsetX e.offsetY)
  else
    (cursor, geom)

/-- A whole `right`-placement resize gesture: fold `rectResizeStep` over the
sequence of pointer-move events, starting from a cursor/rectangle pair. -/
def Canvas.rectResizeRunRight (oldRect : Rect α) (cg : String × Rectangle α)
    (es : List (MouseEvent α)) : String × Rectangle α :=
  es.foldl (fun cg2 e => Canvas.rectResizeStep "right" oldRect cg2.1 cg2.2 e) cg

/-- Result of the polygon branch of the idle hit-test: either a vertex
affordance (cursor `default`, `circleIndex = j`) or the body affordance
(cursor `move`). -/
inductive HitResult where
  | vertex (j : ℕ)
  | body
deriving DecidableEq, Repr

/-- The per-vertex loop of the polygon branch of `Canvas.mouseStyle`
(`Canvas.ts` lines 621-639): at each vertex `j`, first the proximity test
(`distance < radius` resolves to the vertex affordance), then — still inside
the loop — the path is rebuilt and `isPointInPath` is consulted (resolving to
the body affordance).  `insideB` is the (pure, hence loop-invariant) result of
`isPointInPath` on the polygon's full closed path. -/
def Canvas.mouseStylePolygonAux (radius : α) (p : Point α) (insideB : Bool) :
    ℕ → List (Point α) → Option HitResult
  | _, [] => none
  | j, q :: rest =>
    if distLtB p q radius then some (HitResult.vertex j)
    else if insideB then some HitResult.body
    else Canvas.mouseStylePolygonAux radius p insideB (j + 1) rest

/-- The polygon branch of `Canvas.mouseStyle` for one polygon with vertex list
`pts` and pointer `p`.  `inside` abstracts the external
`context.isPointInPath` test over the closed path drawn from `pts`. -/
def Canvas.mouseStylePolygon (inside : List (Point α) → Point α → Bool)
    (radius : α) (pts : List (Point α)) (p : Point α) : Option HitResult :=
  Canvas.mouseStylePolygonAux radius p (inside pts p) 0 pts

/-- `Canvas.drawingPolygonCircle` (`Canvas.ts` lines 688-717), state effects
only: on an empty buffer, push the click as the first vertex; otherwise
compare the click's distance to the first buffered vertex with `radius`
(`> radius` appends the click as a new vertex; `<= radius` closes the
polygon: commit a deep copy of the buffer as a new `Polygon`, clear the
buffer, and select the new shape).  Returns the new (buffer, collection)
pair. -/
def Canvas.drawingPolygonCircle (radius : α) (borderColor : String)
    (circles : List (Point α)) (geoms : List (Geom α)) (e : Point α) :
    Option (List (Point α) × List (Geom α)) :=
  match circles with
  | [] => some ([e], geoms)
  | c0 :: rest =>
    if distLeB c0 e radius then
      (Canvas.setSelected
          (geoms ++ [Geom.poly (Polygon.make (c0 :: rest) borderColor false)])
          (geoms.length : ℤ)).map (fun gs => ([], gs))
    else
      some ((c0 :: rest) ++ [e], geoms)

/-- First branch of `Canvas.mouseup` (`Canvas.ts` lines 800-805): commit a new
rectangle when a box draw ends with both coordinates moved, then select it. -/
def Canvas.mouseupRectCommit (st : CanvasState α) (e : MouseEvent α) :
    Option (CanvasState α) :=
  if st.isDraw = true ∧ st.startX ≠ e.offsetX ∧ st.startY ≠ e.offsetY ∧
      st.circles = [] then
    (Canvas.setSelected
        (st.geoms ++ [Geom.rect
          (Rectangle.make st.startX st.startY e.offsetX e.offsetY
            st.borderColor false)])
        (st.geoms.length : ℤ)).map (fun gs => { st with geoms := gs })
  else
    some st

/-- Second branch of `Canvas.mouseup` (`Canvas.ts` lines 807-809): a click
(up-position = down-position) during a draw is routed to
`drawingPolygonCircle`. -/
def Canvas.mouseupPolygonClick (st : CanvasState α) (e : MouseEvent α) :
    Option (CanvasState α) :=
  if st.isDraw = true ∧ st.startX = e.offsetX ∧ st.startY = e.offsetY then
    (Canvas.drawingPolygonCircle st.radius st.borderColor st.circles st.geoms
        ⟨e.offsetX, e.offsetY⟩).map
      (fun cg => { st with circles := cg.1, geoms := cg.2 })
  else
    some st

/-- Third branch of `Canvas.mouseup` (`Canvas.ts` lines 812-815): a plain
click while dragging/resizing selects the target shape (and fires
`onClick`). -/
def Canvas.mouseupSelectClick (st : CanvasState α) (e : MouseEvent α) :
    Option (CanvasState α) :=
  if (st.isDrag = true ∨ st.isRectChange = true) ∧ st.startX = e.offsetX ∧
      st.startY = e.offsetY then
    (Canvas.setSelected st.geoms st.index).map (fun gs => { st with geoms := gs })
  else
    some st

/-- The three sequential branches of `Canvas.mouseup` before the trailing
resets. -/
def Canvas.mouseupCore (st : CanvasState α) (e : MouseEvent α) :
    Option (CanvasState α) :=
  (Canvas.mouseupRectCommit st e).bind fun s1 =>
    (Canvas.mouseupPolygonClick s1 e).bind fun s2 =>
      Canvas.mouseupSelectClick s2 e

/-- `Canvas.mouseup` (`Canvas.ts` lines 799-827): the three branches, then the
unconditional trailing assignments `startX = -1; startY = -1; isDraw = false;
isDrag = false; isRectChange = false` (`index`, `circleIndex` and `placement`
are not touched there).  `none` models a thrown exception, in which case the
trailing assignments never execute. -/
def Canvas.mouseup (st : CanvasState α) (e : MouseEvent α) :
    Option (CanvasState α) :=
  (Canvas.mouseupCore st e).map fun s =>
    { s with startX := -1, startY := -1, isDraw := false, isDrag := false,
             isRectChange := false }

/-- The pre-gesture snapshot rect of claim C1's scenario. -/
def c1Snapshot : Rect ℤ := ⟨0, 0, 100, 50⟩

/-- The target rectangle of claim C1's scenario, in its pre-gesture state. -/
def c1Geom : Rectangle ℤ := Rectangle.make 0 0 100 50 "black" false

/-- C1 scenario, first pointer-move: drag the `right` edge to `x = -20`
(movement from the right edge at `x = 100`). -/
def c1Step1 : String × Rectangle ℤ :=
  Canvas.rectResizeStep "right" c1Snapshot "e-resize" c1Geom ⟨-20, 25, -120, 0⟩

/-- C1 scenario, second pointer-move: drag back to `x = 150` in one move
(`movementX = 150 - (-20) = 170`). -/
def c1Step2 : String × Rectangle ℤ :=
  Canvas.rectResizeStep "right" c1Snapshot c1Step1.1 c1Step1.2 ⟨150, 25, 170, 0⟩

/-- C2 scenario, gesture A: from the snapshot `{0,0,100,50}` with the pointer
down at `(100, 25)`, a single move to `(150, 25)`. -/
def c2GestureA : String × Rectangle ℤ :=
  Canvas.rectResizeRunRight ⟨0, 0, 100, 50⟩
    ("e-resize", Rectangle.make 0 0 100 50 "black" false)
    [⟨150, 25, 50, 0⟩]

/-- C2 scenario, gesture B: same snapshot and down position, but moving first
to `(-20, 25)` and then to `(150, 25)` — same placement, same final pointer
position as gesture A. -/
def c2GestureB : String × Rectangle ℤ :=
  Canvas.rectResizeRunRight ⟨0, 0, 100, 50⟩
    ("e-resize", Rectangle.make 0 0 100 50 "black" false)
    [⟨-20, 25, -120, 0⟩, ⟨150, 25, 170, 0⟩]

/-- C3 scenario: a 100×100 square polygon. -/
def c3Square : List (Point ℤ) := [⟨0, 0⟩, ⟨100, 0⟩, ⟨100, 100⟩, ⟨0, 100⟩]

/-- C3 scenario: the interior test for the square `c3Square`.  On this
polygon, the browser's `isPointInPath` is true at every strictly interior
point, which is what this function decides. -/
def c3Inside : List (Point ℤ) → Point ℤ → Bool :=
  fun _ p => decide (0 < p.x ∧ p.x < 100 ∧ 0 < p.y ∧ p.y < 100)

/-- C3 scenario: a pointer position strictly inside the square and within
radius 5 of its second vertex `(100, 0)` (distance `sqrt 13`). -/
def c3Pointer : Point ℤ := ⟨97, 2⟩

/-- C5 scenario: editor state right before the pointer-up of a zero-movement
box draw started at `(10, 10)`. -/
def c5State : CanvasState ℤ :=
  { geoms := [], circles := [], isDraw := true, isDrag := false,
    startX := 10, startY := 10, index := -1, circleIndex := -1,
    isRectChange := false, placement := "", oldRect := ⟨-1, -1, -1, -1⟩,
    borderColor := "black", radius := 5 }

/-- C5 scenario: the pointer-up event at the unchanged position `(10, 10)`. -/
def c5Event : MouseEvent ℤ := ⟨10, 10, 0, 0⟩

/-- C7 scenario: editor state at the end of a resize gesture (placement
`right`, target shape 0, a stale vertex index 3) whose pointer moved between
down `(5,5)` and up `(7,8)`. -/
def c7State : CanvasState ℤ :=
  { geoms := [Geom.rect (Rectangle.make 0 0 100 50 "black" false)],
    circles := [], isDraw := false, isDrag := false,
    startX := 5, startY := 5, index := 0, circleIndex := 3,
    isRectChange := true, placement := "right", oldRect := ⟨0, 0, 100, 50⟩,
    borderColor := "black", radius := 5 }

/-- C7 scenario: the pointer-up event at `(7, 8)`. -/
def c7Event : MouseEvent ℤ := ⟨7, 8, 1, 1⟩

/-- C7 scenario: the state actually produced by `mouseup` on `c7State` /
`c7Event` — flags and anchor reset, everything else untouched. -/
def c7Result : CanvasState ℤ :=
  { c7State with startX := -1, startY := -1, isRectChange := false }

/-- C8 scenario: a one-element shape collection. -/
def c8Geom : Geom ℤ := Geom.rect (Rectangle.make 0 0 1 1 "black" false)

/-- C9 scenario: a box at `(0,0)` with width 100 and height 50. -/
def c9Geom : Rectangle ℤ := Rectangle.make 0 0 100 50 "black" false

/-- C9 scenario: a pointer-move with movement `(3, 4)`. -/
def c9Event : MouseEvent ℤ := ⟨50, 20, 3, 4⟩

/-! ## Helper lemmas -/

/-- Closed form of `setPointsRect`: the normalised bounds are `min`/`max` of
the two input corners. -/
theorem Rectangle.setPointsRect_eq (g : Rectangle α) (x0 y0 x1 y1 : α) :
    g.setPointsRect x0 y0 x1 y1 =
      { g with
        points := [⟨min x0 x1, min y0 y1⟩, ⟨max x0 x1, min y0 y1⟩,
                   ⟨max x0 x1, max y0 y1⟩, ⟨min x0 x1, max y0 y1⟩],
        rect := ⟨min x0 x1, min y0 y1, max x0 x1 - min x0 x1,
                 max y0 y1 - min y0 y1⟩ } := by
  rcases lt_or_le x0 x1 with h1 | h1 <;> rcases lt_or_le y0 y1 with h2 | h2
  · simp [Rectangle.setPointsRect, h1, h2, min_eq_left h1.le,
      max_eq_right h1.le, min_eq_left h2.le, max_eq_right h2.le]
  · simp [Rectangle.setPointsRect, h1, not_lt.mpr h2, min_eq_left h1.le,
      max_eq_right h1.le, min_eq_right h2, max_eq_left h2]
  · simp [Rectangle.setPointsRect, not_lt.mpr h1, h2, min_eq_right h1,
      max_eq_left h1, min_eq_left h2.le, max_eq_right h2.le]
  · simp [Rectangle.setPointsRect, not_lt.mpr h1, not_lt.mpr h2,
      min_eq_right h1, max_eq_left h1, min_eq_right h2, max_eq_left h2]

/-- `get?` at the length of the left part of an append hits the appended
element. -/
theorem list_get_append_last {β : Type} (l : List β) (a : β) :
    (l ++ [a]).get? l.length = some a := by
  induction l with
  | nil => rfl
  | cons hd tl ih => simpa using ih

/-- `set` at the length of the left part of an append replaces the appended
element. -/
theorem list_set_append_last {β : Type} (l : List β) (a b : β) :
    (l ++ [a]).set l.length b = l ++ [b] := by
  induction l with
  | nil => rfl
  | cons hd tl ih => simp [List.set, ih]

/-- `Canvas.setSelected` on a freshly appended shape: it deselects all old
shapes and selects the appended one. -/
theorem setSelected_append_last (geoms : List (Geom α)) (g : Geom α) :
    Canvas.setSelected (geoms ++ [g]) (geoms.length : ℤ) =
      some ((geoms.map fun x => x.withSelected false) ++
        [g.withSelected true]) := by
  have h0 : (0 : ℤ) ≤ (geoms.length : ℤ) := Int.natCast_nonneg _
  have hset := list_set_append_last (geoms.map fun x => x.withSelected false)
    (g.withSelected false) (g.withSelected true)
  simp only [List.length_map] at hset
  rw [Canvas.setSelected, if_pos h0, Int.toNat_natCast, list_get_append_last]
  simp [List.map_append, hset]

/-- `setPointsRect` with y-bounds `y` and `y + h`, `0 ≤ h`, keeps `y` and `h`
in the descriptor. -/
theorem setPointsRect_y_height (g : Rectangle α) (a b y h : α) (hh : 0 ≤ h) :
    (g.setPointsRect a y b (y + h)).rect.y = y ∧
    (g.setPointsRect a y b (y + h)).rect.height = h := by
  have h1 : min y (y + h) = y := min_eq_left (le_add_of_nonneg_right hh)
  have h2 : max y (y + h) = y + h := max_eq_right (le_add_of_nonneg_right hh)
  rw [Rectangle.setPointsRect_eq]
  constructor
  · simp [h1]
  · simp [h1, h2]

/-- A `right`-placement resize step never changes the rect's `y` or
`height` (both branches pass the live `y` and `y + height` through
`setPointsRect`). -/
theorem rectResizeStep_right_yh (oldRect : Rect α) (cur : String)
    (g : Rectangle α) (e : MouseEvent α) (hy : g.rect.y = oldRect.y)
    (hh : g.rect.height = oldRect.height) (h0 : 0 ≤ oldRect.height) :
    (Canvas.rectResizeStep "right" oldRect cur g e).2.rect.y = oldRect.y ∧
    (Canvas.rectResizeStep "right" oldRect cur g e).2.rect.height =
      oldRect.height := by
  have h0' : 0 ≤ g.rect.height := by rw [hh]; exact h0
  rw [Canvas.rectResizeStep, if_pos rfl]
  by_cases hc : oldRect.x ≤ e.offsetX
  · rw [if_pos hc]
    have := setPointsRect_y_height g oldRect.x
      (oldRect.x + g.rect.width + e.movementX) g.rect.y g.rect.height h0'
    exact ⟨this.1.trans hy, this.2.trans hh⟩
  · rw [if_neg hc]
    have := setPointsRect_y_height g e.offsetX oldRect.x g.rect.y
      g.rect.height h0'
    exact ⟨this.1.trans hy, this.2.trans hh⟩

/-- The `y`/`height` invariant of `rectResizeStep_right_yh`, extended over a
whole gesture. -/
theorem rectResizeRunRight_yh (oldRect : Rect α) (h0 : 0 ≤ oldRect.height) :
    ∀ (es : List (MouseEvent α)) (cg : String × Rectangle α),
      cg.2.rect.y = oldRect.y → cg.2.rect.height = oldRect.height →
      (Canvas.rectResizeRunRight oldRect cg es).2.rect.y = oldRect.y ∧
      (Canvas.rectResizeRunRight oldRect cg es).2.rect.height =
        oldRect.height
  | [], _, hy, hh => ⟨hy, hh⟩
  | e :: es, cg, hy, hh => by
    have step := rectResizeStep_right_yh oldRect cg.1 cg.2 e hy hh h0
    exact rectResizeRunRight_yh oldRect h0 es
      (Canvas.rectResizeStep "right" oldRect cg.1 cg.2 e) step.1 step.2

/-! ## Claim theorems -/

/-- C1 (amended): for the `right` placement on snapshot `{0,0,100,50}`,
dragging the pointer to `x = -20` yields rect `{x:-20, width:20}` and the
`w-resize` cursor, as claimed; but dragging back to `x = 150` in one move
yields the `e-resize` cursor and `x = 0` with `width = 190` — the uncrossed
branch computes the new right edge as `oldRect.x + liveWidth + movementX`
(`0 + 20 + 170`), not as the pointer position `150`. -/
theorem c1_right_crossing_actual :
    c1Step1.1 = "w-resize" ∧
    c1Step1.2.rect = ⟨-20, 0, 20, 50⟩ ∧
    c1Step2.1 = "e-resize" ∧
    c1Step2.2.rect = ⟨0, 0, 190, 50⟩ := by decide

/-- C1 (counterexample): the claim predicts `width = 150` after dragging back
to `x = 150`; the code produces `width = 190` on that concrete gesture. -/
theorem c1_right_crossing_claim_false :
    c1Step1.1 = "w-resize" ∧
    c1Step1.2.rect = ⟨-20, 0, 20, 50⟩ ∧
    c1Step2.1 = "e-resize" ∧
    c1Step2.2.rect.x = 0 ∧
    c1Step2.2.rect.width ≠ 150 := by decide

/-- C2 (amended): in a `right`-edge resize gesture the snapshot determines
`y` and `height` throughout, and any pointer-move that has crossed the
anchor (`offsetX < oldRect.x`) produces a rect determined by the snapshot
and the current pointer alone, independent of the intermediate moves; moves
on the uncrossed side instead use the live width plus the incremental
movement, so the gesture as a whole is path-dependent. -/
theorem rectResize_right_crossed_determined (oldRect : Rect α)
    (cursor0 : String) (geom : Rectangle α) (es : List (MouseEvent α))
    (e : MouseEvent α) (hy : geom.rect.y = oldRect.y)
    (hh : geom.rect.height = oldRect.height) (h0 : 0 ≤ oldRect.height)
    (hx : e.offsetX < oldRect.x) :
    (Canvas.rectResizeRunRight oldRect (cursor0, geom) (es ++ [e])).1 =
      "w-resize" ∧
    (Canvas.rectResizeRunRight oldRect (cursor0, geom) (es ++ [e])).2.rect =
      ⟨e.offsetX, oldRect.y, oldRect.x - e.offsetX, oldRect.height⟩ := by
  have hrun := rectResizeRunRight_yh oldRect h0 es (cursor0, geom) hy hh
  have happ : Canvas.rectResizeRunRight oldRect (cursor0, geom) (es ++ [e]) =
      Canvas.rectResizeStep "right" oldRect
        (Canvas.rectResizeRunRight oldRect (cursor0, geom) es).1
        (Canvas.rectResizeRunRight oldRect (cursor0, geom) es).2 e := by
    simp [Canvas.rectResizeRunRight, List.foldl_append]
  rw [happ, Canvas.rectResizeStep, if_pos rfl, if_neg (not_le.mpr hx)]
  refine ⟨rfl, ?_⟩
  rw [Rectangle.setPointsRect_eq]
  simp only [hrun.1, hrun.2]
  have h1 : min e.offsetX oldRect.x = e.offsetX := min_eq_left hx.le
  have h2 : max e.offsetX oldRect.x = oldRect.x := max_eq_right hx.le
  have h5 : min oldRect.y (oldRect.y + oldRect.height) = oldRect.y :=
    min_eq_left (le_add_of_nonneg_right h0)
  have h6 : max oldRect.y (oldRect.y + oldRect.height) =
      oldRect.y + oldRect.height := max_eq_right (le_add_of_nonneg_right h0)
  have h7 : oldRect.y + oldRect.height - oldRect.y = oldRect.height := by ring
  simp [h1, h2, h5, h6, h7]

/-- C2 (witness for the amended theorem): one uncrossed move followed by a
crossed move to `(-20, 25)` ends at rect `{-20, 0, 20, 50}` with the west
cursor. -/
theorem rectResize_right_crossed_determined_witness :
    (Canvas.rectResizeRunRight (⟨0, 0, 100, 50⟩ : Rect ℤ)
        ("e-resize", Rectangle.make 0 0 100 50 "black" false)
        ([⟨150, 25, 50, 0⟩] ++ [⟨-20, 25, -170, 0⟩])).1 = "w-resize" ∧
    (Canvas.rectResizeRunRight (⟨0, 0, 100, 50⟩ : Rect ℤ)
        ("e-resize", Rectangle.make 0 0 100 50 "black" false)
        ([⟨150, 25, 50, 0⟩] ++ [⟨-20, 25, -170, 0⟩])).2.rect =
      ⟨-20, 0, 20, 50⟩ := by
  have h := rectResize_right_crossed_determined (⟨0, 0, 100, 50⟩ : Rect ℤ)
    "e-resize" (Rectangle.make 0 0 100 50 "black" false)
    [⟨150, 25, 50, 0⟩] ⟨-20, 25, -170, 0⟩
    (by decide) (by decide) (by decide) (by decide)
  exact ⟨h.1, h.2.trans (by decide)⟩

/-- C2 (counterexample): two `right`-placement gestures with the same
snapshot `{0,0,100,50}`, the same placement and the same final pointer
position `(150, 25)` produce different rects (`width 150` vs `width 190`),
so the per-move rect is not a function of snapshot, placement and current
pointer position alone. -/
theorem c2_resize_path_dependent :
    c2GestureA.2.rect = ⟨0, 0, 150, 50⟩ ∧
    c2GestureB.2.rect = ⟨0, 0, 190, 50⟩ ∧
    c2GestureA.2.rect ≠ c2GestureB.2.rect := by decide

/-- C3 (amended): only the first vertex's proximity test is guaranteed to
precede the interior test.  If the pointer is within `radius` of vertex 0,
the vertex affordance (index 0) wins; if it is not within `radius` of
vertex 0 and lies inside the interior, the body affordance wins — even when
the pointer is within `radius` of a later vertex, because the interior test
is re-run inside the per-vertex loop. -/
theorem mouseStylePolygon_first_vertex_priority
    (inside : List (Point α) → Point α → Bool) (radius : α)
    (q p : Point α) (rest : List (Point α)) :
    (distLtB p q radius = true →
      Canvas.mouseStylePolygon inside radius (q :: rest) p =
        some (HitResult.vertex 0)) ∧
    (distLtB p q radius = false → inside (q :: rest) p = true →
      Canvas.mouseStylePolygon inside radius (q :: rest) p =
        some HitResult.body) := by
  constructor
  · intro h
    simp [Canvas.mouseStylePolygon, Canvas.mouseStylePolygonAux, h]
  · intro h h2
    simp [Canvas.mouseStylePolygon, Canvas.mouseStylePolygonAux, h, h2]

/-- C3 (witness): at pointer `(97, 2)` — inside the square, not within
radius 5 of vertex 0 — the resolver returns the body affordance. -/
theorem mouseStylePolygon_first_vertex_priority_witness :
    Canvas.mouseStylePolygon c3Inside 5 c3Square c3Pointer =
      some HitResult.body :=
  (mouseStylePolygon_first_vertex_priority c3Inside 5 ⟨0, 0⟩ c3Pointer
    [⟨100, 0⟩, ⟨100, 100⟩, ⟨0, 100⟩]).2 (by decide) (by decide)

/-- C3 (counterexample): the pointer `(97, 2)` is strictly inside the square
`c3Square` and within radius 5 of its vertex 1 = `(100, 0)` (distance
`sqrt 13 < 5`), yet the resolver returns the body affordance, not the
vertex affordance — the claim's "every vertex is tested before the body
test" fails. -/
theorem c3_vertex_after_interior_false :
    c3Square.get? 1 = some ⟨100, 0⟩ ∧
    distLtB c3Pointer ⟨100, 0⟩ 5 = true ∧
    c3Inside c3Square c3Pointer = true ∧
    Canvas.mouseStylePolygon c3Inside 5 c3Square c3Pointer ≠
      some (HitResult.vertex 1) ∧
    Canvas.mouseStylePolygon c3Inside 5 c3Square c3Pointer =
      some HitResult.body := by decide

/-- C4: for all corner inputs, `setPointsRect` establishes
`width, height ≥ 0`, sets the 4 points to exactly the corners of the
canonical rect in the fixed order (min-x/min-y, max-x/min-y, max-x/max-y,
min-x/max-y), and is swap-invariant. -/
theorem setPointsRect_canonical_swap_invariant (g : Rectangle α)
    (x0 y0 x1 y1 : α) :
    0 ≤ (g.setPointsRect x0 y0 x1 y1).rect.width ∧
    0 ≤ (g.setPointsRect x0 y0 x1 y1).rect.height ∧
    (g.setPointsRect x0 y0 x1 y1).points =
      rectCorners (g.setPointsRect x0 y0 x1 y1).rect ∧
    g.setPointsRect x0 y0 x1 y1 = g.setPointsRect x1 y1 x0 y0 := by
  refine ⟨?_, ?_, ?_, ?_⟩
  · rw [Rectangle.setPointsRect_eq]
    simp [sub_nonneg, min_le_max]
  · rw [Rectangle.setPointsRect_eq]
    simp [sub_nonneg, min_le_max]
  · have hx1 : min x0 x1 + (max x0 x1 - min x0 x1) = max x0 x1 := by ring
    have hy1 : min y0 y1 + (max y0 y1 - min y0 y1) = max y0 y1 := by ring
    rw [Rectangle.setPointsRect_eq]
    simp [rectCorners, hx1, hy1]
  · rw [Rectangle.setPointsRect_eq, Rectangle.setPointsRect_eq]
    simp [min_comm, max_comm]

/-- C5 (code bug): a pointer-up at the pointer-down position after a box draw
appends no shape (first conjunct: the zero-movement up at `(10,10)` leaves
the collection empty and only buffers a polygon vertex), but a second click
within the closing radius of the single buffered vertex is NOT rejected: it
commits a 1-vertex polygon to the collection and selects it (second
conjunct), contradicting the spec's requirement that a single-point polygon
closed immediately be detected and rejected. -/
theorem c5_degenerate_polygon_committed :
    ((Canvas.mouseup c5State c5Event).map (fun s => s.geoms) = some [] ∧
     (Canvas.mouseup c5State c5Event).map (fun s => s.circles) =
       some [⟨10, 10⟩]) ∧
    Canvas.drawingPolygonCircle (5 : ℤ) "black" [⟨10, 10⟩] [] ⟨10, 10⟩ =
      some ([], [Geom.poly ⟨[⟨10, 10⟩], "black", true⟩]) := by decide

/-- C6: with 3 buffered vertices, a 4th click within `radius` of the first
vertex commits a polygon with exactly those 3 vertices (the closing click is
not appended), clears the buffer and selects the new shape; a 4th click
outside that radius appends a 4th vertex and commits nothing. -/
theorem drawingPolygonCircle_closing_tolerance (radius : α) (color : String)
    (c0 c1 c2 : Point α) (geoms : List (Geom α)) (e : Point α) :
    Canvas.drawingPolygonCircle radius color [c0, c1, c2] geoms e =
      if distLeB c0 e radius then
        some ([], (geoms.map fun g => g.withSelected false) ++
          [Geom.poly ⟨[c0, c1, c2], color, true⟩])
      else
        some ([c0, c1, c2, e], geoms) := by
  cases hb : distLeB c0 e radius
  · simp [Canvas.drawingPolygonCircle, hb]
  · have hsel := setSelected_append_last geoms
      (Geom.poly (Polygon.make [c0, c1, c2] color false))
    have hws : (Geom.poly (Polygon.make [c0, c1, c2] color false)).withSelected
        true = Geom.poly (⟨[c0, c1, c2], color, true⟩ : Polygon α) := rfl
    simp [Canvas.drawingPolygonCircle, hb, hsel, hws]

/-- The first `mouseup` branch only rewrites `geoms`: `placement`, `index`
and `circleIndex` pass through. -/
theorem mouseupRectCommit_fields (st : CanvasState α) (e : MouseEvent α)
    (s : CanvasState α) (h : Canvas.mouseupRectCommit st e = some s) :
    s.placement = st.placement ∧ s.index = st.index ∧
    s.circleIndex = st.circleIndex := by
  rw [Canvas.mouseupRectCommit] at h
  split at h
  · rcases Option.map_eq_some'.mp h with ⟨gs, hgs, rfl⟩
    exact ⟨rfl, rfl, rfl⟩
  · simp only [Option.some.injEq] at h
    subst h
    exact ⟨rfl, rfl, rfl⟩

/-- The second `mouseup` branch only rewrites `circles` and `geoms`:
`placement`, `index` and `circleIndex` pass through. -/
theorem mouseupPolygonClick_fields (st : CanvasState α) (e : MouseEvent α)
    (s : CanvasState α) (h : Canvas.mouseupPolygonClick st e = some s) :
    s.placement = st.placement ∧ s.index = st.index ∧
    s.circleIndex = st.circleIndex := by
  rw [Canvas.mouseupPolygonClick] at h
  split at h
  · rcases Option.map_eq_some'.mp h with ⟨cg, hcg, rfl⟩
    exact ⟨rfl, rfl, rfl⟩
  · simp only [Option.some.injEq] at h
    subst h
    exact ⟨rfl, rfl, rfl⟩

/-- The third `mouseup` branch only rewrites `geoms`: `placement`, `index`
and `circleIndex` pass through. -/
theorem mouseupSelectClick_fields (st : CanvasState α) (e : MouseEvent α)
    (s : CanvasState α) (h : Canvas.mouseupSelectClick st e = some s) :
    s.placement = st.placement ∧ s.index = st.index ∧
    s.circleIndex = st.circleIndex := by
  rw [Canvas.mouseupSelectClick] at h
  split at h
  · rcases Option.map_eq_some'.mp h with ⟨gs, hgs, rfl⟩
    exact ⟨rfl, rfl, rfl⟩
  · simp only [Option.some.injEq] at h
    subst h
    exact ⟨rfl, rfl, rfl⟩

/-- C7 (amended): every pointer-up that completes without throwing clears
the mode flags and sets the anchor to the `-1` sentinel, but it does NOT
reset the target shape index, the target vertex index or the placement
string — those keep their pre-up values (they are only reset by the next
idle hit-test). -/
theorem mouseup_resets_mode_and_anchor_only (st : CanvasState α)
    (e : MouseEvent α) (st' : CanvasState α)
    (h : Canvas.mouseup st e = some st') :
    st'.isDraw = false ∧ st'.isDrag = false ∧ st'.isRectChange = false ∧
    st'.startX = -1 ∧ st'.startY = -1 ∧
    st'.placement = st.placement ∧ st'.index = st.index ∧
    st'.circleIndex = st.circleIndex := by
  rw [Canvas.mouseup] at h
  rcases Option.map_eq_some'.mp h with ⟨s3, hcore, rfl⟩
  rw [Canvas.mouseupCore] at hcore
  rcases Option.bind_eq_some.mp hcore with ⟨s1, h1, hrest⟩
  rcases Option.bind_eq_some.mp hrest with ⟨s2, h2, h3⟩
  have p1 := mouseupRectCommit_fields st e s1 h1
  have p2 := mouseupPolygonClick_fields s1 e s2 h2
  have p3 := mouseupSelectClick_fields s2 e s3 h3
  exact ⟨rfl, rfl, rfl, rfl, rfl,
    p3.1.trans (p2.1.trans p1.1),
    p3.2.1.trans (p2.2.1.trans p1.2.1),
    p3.2.2.trans (p2.2.2.trans p1.2.2)⟩

/-- C7 (witness): a concrete resize gesture's pointer-up resets flags and
anchor and keeps placement `right`, index 0, vertex index 3. -/
theorem mouseup_resets_mode_and_anchor_only_witness :
    c7Result.isDraw = false ∧ c7Result.isDrag = false ∧
    c7Result.isRectChange = false ∧ c7Result.startX = -1 ∧
    c7Result.startY = -1 ∧ c7Result.placement = c7State.placement ∧
    c7Result.index = c7State.index ∧
    c7Result.circleIndex = c7State.circleIndex :=
  mouseup_resets_mode_and_anchor_only c7State c7Event c7Result (by decide)

/-- C7 (counterexample): after the pointer-up of a resize gesture, the
placement is still `"right"`, the target index still `0` and the vertex
index still `3` — not the claimed neutral values `("", -1, -1)`. -/
theorem c7_mouseup_keeps_placement_index :
    (Canvas.mouseup c7State c7Event).map
        (fun s => (s.placement, s.index, s.circleIndex)) =
      some ("right", 0, 3) ∧
    (Canvas.mouseup c7State c7Event).map
        (fun s => (s.placement, s.index, s.circleIndex)) ≠
      some ("", -1, -1) := by decide

/-- C8 (amended): `delete` never throws: with an index at or past the end it
silently leaves the collection unchanged, and with index `-1` it removes the
LAST shape (JS `splice` counts negative indices from the end); only
`setSelected` fails fast (throws a `TypeError`, here `none`) on an
out-of-range index. -/
theorem delete_silent_setSelected_throws (geoms : List (Geom α)) (i : ℤ) :
    ((geoms.length : ℤ) ≤ i → Canvas.delete geoms i = some geoms) ∧
    Canvas.delete geoms (-1) = some geoms.dropLast ∧
    (¬ (0 ≤ i ∧ i.toNat < geoms.length) →
      Canvas.setSelected geoms i = none) := by
  refine ⟨?_, ?_, ?_⟩
  · intro hlen
    have hi0 : ¬ i < 0 := not_lt.mpr (le_trans (Int.natCast_nonneg _) hlen)
    have hmin : min i (geoms.length : ℤ) = (geoms.length : ℤ) :=
      min_eq_right hlen
    have hdrop : geoms.drop (geoms.length + 1) = [] :=
      List.drop_eq_nil_of_le (by omega)
    rw [Canvas.delete]
    simp [spliceDelete, hi0, hmin, Int.toNat_natCast, hdrop, List.take_length]
  · rw [Canvas.delete]
    cases geoms with
    | nil => rfl
    | cons hd tl =>
      have h2 : (((hd :: tl).length : ℤ)) + -1 = (tl.length : ℤ) := by
        rw [List.length_cons]
        push_cast
        ring
      have h3 : max ((tl.length : ℤ)) 0 = (tl.length : ℤ) :=
        max_eq_left (Int.natCast_nonneg _)
      have hdrop : (hd :: tl).drop (tl.length + 1) = [] := by
        simpa using List.drop_length (hd :: tl)
      simp [spliceDelete, h2, h3, Int.toNat_natCast, hdrop,
        List.dropLast_eq_take]
  · intro hcond
    rcases lt_or_le i 0 with hi | hi
    · rw [Canvas.setSelected, if_neg (not_le.mpr hi)]
    · have hge : geoms.length ≤ i.toNat := by
        rcases not_and_or.mp hcond with h | h
        · exact absurd hi h
        · omega
      have hnone : geoms.get? i.toNat = none := List.get?_eq_none.mpr hge
      rw [Canvas.setSelected, if_pos hi, hnone]

/-- C8 (witness): on a one-shape collection, `delete 5` returns normally
with the collection unchanged, while `setSelected 5` throws. -/
theorem delete_silent_setSelected_throws_witness :
    Canvas.delete [c8Geom] (5 : ℤ) = some [c8Geom] ∧
    Canvas.setSelected [c8Geom] (5 : ℤ) = none :=
  ⟨(delete_silent_setSelected_throws [c8Geom] 5).1 (by decide),
   (delete_silent_setSelected_throws [c8Geom] 5).2.2 (by decide)⟩

/-- C8 (counterexample): `delete 7` on a 1-shape collection raises nothing
and silently no-ops, and `delete (-1)` on a 2-shape collection silently
removes the last shape — a state the caller did not request; neither call
fails fast. -/
theorem c8_delete_out_of_range_no_throw :
    Canvas.delete [c8Geom] (7 : ℤ) = some [c8Geom] ∧
    Canvas.delete [c8Geom, c8Geom.withSelected true] (-1 : ℤ) =
      some [c8Geom] := by decide

/-- C9: dragging a box's body by movement `(dx, dy)` translates the rect
origin by `(dx, dy)`, keeps width and height, and translates all 4 corner
points by exactly `(dx, dy)` (for any box in its canonical state:
nonnegative extent, points equal to the rect's corners). -/
theorem draggingRect_translates_points (geom : Rectangle α)
    (e : MouseEvent α) (hw : 0 ≤ geom.rect.width)
    (hh : 0 ≤ geom.rect.height) (hp : geom.points = rectCorners geom.rect) :
    (Canvas.draggingRect geom e).rect =
      ⟨geom.rect.x + e.movementX, geom.rect.y + e.movementY,
       geom.rect.width, geom.rect.height⟩ ∧
    (Canvas.draggingRect geom e).points =
      geom.points.map (fun p => ⟨p.x + e.movementX, p.y + e.movementY⟩) := by
  have hminx : min (geom.rect.x + e.movementX)
      (geom.rect.x + e.movementX + geom.rect.width) =
      geom.rect.x + e.movementX := min_eq_left (le_add_of_nonneg_right hw)
  have hmaxx : max (geom.rect.x + e.movementX)
      (geom.rect.x + e.movementX + geom.rect.width) =
      geom.rect.x + e.movementX + geom.rect.width :=
    max_eq_right (le_add_of_nonneg_right hw)
  have hminy : min (geom.rect.y + e.movementY)
      (geom.rect.y + e.movementY + geom.rect.height) =
      geom.rect.y + e.movementY := min_eq_left (le_add_of_nonneg_right hh)
  have hmaxy : max (geom.rect.y + e.movementY)
      (geom.rect.y + e.movementY + geom.rect.height) =
      geom.rect.y + e.movementY + geom.rect.height :=
    max_eq_right (le_add_of_nonneg_right hh)
  constructor
  · simp only [Canvas.draggingRect]
    rw [Rectangle.setPointsRect_eq]
    simp [hminx, hmaxx, hminy, hmaxy]
  · simp only [Canvas.draggingRect]
    rw [Rectangle.setPointsRect_eq, hp]
    simp [rectCorners, hminx, hmaxx, hminy, hmaxy, Point.mk.injEq]
    constructor <;> ring

/-- C9 (witness): dragging the box `{0,0,100,50}` by `(3,4)` gives rect
`{3,4,100,50}` and translates each of the 4 points by `(3,4)`. -/
theorem draggingRect_translates_points_witness :
    (Canvas.draggingRect c9Geom c9Event).rect = ⟨3, 4, 100, 50⟩ ∧
    (Canvas.draggingRect c9Geom c9Event).points =
      c9Geom.points.map (fun p => ⟨p.x + 3, p.y + 4⟩) := by
  have h := draggingRect_translates_points c9Geom c9Event (by decide)
    (by decide) (by decide)
  exact ⟨h.1.trans (by decide), h.2.trans (by decide)⟩

/-- C10: the `Polygon` constructor stores `selected = false` no matter what
value its `selected` parameter has, while the `Rectangle` constructor stores
its `selected` argument. -/
theorem polygon_constructor_ignores_selected (pts : List (Point α))
    (c : String) (s : Bool) (x0 y0 x1 y1 : α) :
    (Polygon.make pts c s).selected = false ∧
    (Rectangle.make x0 y0 x1 y1 c s).selected = s :=
  ⟨rfl, rfl⟩
